import Mathlib

/-!
Verification of the SPID rot2proG controller interface
(`rot2proG_serial_v2.py`, class `Rot2proG`).

The embedding models the protocol codec and session logic of the three
operations `status()`, `stop()` and `set()`:

* Response bytes are naturals (Python `bytes` indexing yields ints).
* Degree values are rationals (`ℚ`), mirroring the exact arithmetic the
  Python source writes down (`rec[1]*100 + rec[2]*10 + rec[3] + rec[4]/10
  - 360.0`).
* Python exceptions are an explicit error type; a raised exception means
  the function returns `Except.error` and performs none of the statements
  after the raise point.
* The serial transport is modelled by its observable trace: each operation
  returns the list of byte packets it writes, and `status`/`stop` take the
  12-byte (in general: arbitrary) packet produced by `self.ser.read(12)`
  as an argument.
-/

/-- Python exception kinds arising in the modelled code paths, using the
spec's vocabulary for the distinct failure conditions:
* `rangeError` — the `assert` statements on lines 155–158 bounding
  azimuth/elevation in `set()` (an `AssertionError` in Python);
* `consistencyError` — the `assert(ph == pv)` statements on lines 100/135
  of `status()`/`stop()` (an `AssertionError` in Python);
* `indexError` — an out-of-range sequence index (`IndexError` in Python),
  from `rec_packet[i]` on a short packet or `az[-4]` on a short string;
* `uninitializedResolutionError` — named by the spec for a SET attempted
  with pulse resolution 0; the code contains no such check and never
  raises it (it is included only so that statements about it can be
  expressed). -/
inductive PyError where
  | rangeError : PyError
  | consistencyError : PyError
  | indexError : PyError
  | uninitializedResolutionError : PyError
deriving DecidableEq

/-- Session state of a `Rot2proG` object: the class attributes that the
modelled operations read or write (`pulse`, `debug`, `dev_path`).
`pulse` is the cached pulse resolution, initially 0. -/
structure Session where
  pulse : ℕ
  debug : Bool
  dev_path : String
deriving DecidableEq

/-- A fresh session before any exchange: class attributes `pulse = 0`,
`debug = False`, `dev_path = ""`. -/
def initSession : Session := { pulse := 0, debug := false, dev_path := "" }

/-- Class attribute `max_az = float(360)`. -/
def max_az : ℚ := 360

/-- Class attribute `min_az = float(-180)`. -/
def min_az : ℚ := -180

/-- Class attribute `max_el = float(180)`. -/
def max_el : ℚ := 180

/-- Class attribute `min_el = float(0)`. -/
def min_el : ℚ := 0

/-- Python sequence indexing `l[i]` for a nonnegative index: returns the
element, or raises `IndexError` when `i` is out of range. -/
def pyIndex (l : List ℕ) (i : ℕ) : Except PyError ℕ :=
  match l.get? i with
  | some v => Except.ok v
  | none => Except.error PyError.indexError

/-- The response-decoding block shared verbatim by `status()` (lines
92–101) and `stop()` (lines 126–136): index the received packet, compute

`az = rec[1]*100 + rec[2]*10 + rec[3] + rec[4]/10 - 360.0`
`el = rec[6]*100 + rec[7]*10 + rec[8] + rec[9]/10 - 360.0`
`ph = rec[5]`, `pv = rec[10]`,

then `assert(ph == pv)`, then `self.pulse = ph`, and return
`[az, el, ph]`.  The returned session carries the updated `pulse`; on any
raised exception no value is returned and the assignment to `pulse` does
not happen (the `assert` precedes it in the source). -/
def respDecode (s : Session) (rec : List ℕ) :
    Except PyError ((ℚ × ℚ × ℕ) × Session) := do
  let r1 ← pyIndex rec 1
  let r2 ← pyIndex rec 2
  let r3 ← pyIndex rec 3
  let r4 ← pyIndex rec 4
  let r6 ← pyIndex rec 6
  let r7 ← pyIndex rec 7
  let r8 ← pyIndex rec 8
  let r9 ← pyIndex rec 9
  let ph ← pyIndex rec 5
  let pv ← pyIndex rec 10
  let az : ℚ := (r1 : ℚ) * 100 + (r2 : ℚ) * 10 + (r3 : ℚ) + (r4 : ℚ) / 10 - 360
  let el : ℚ := (r6 : ℚ) * 100 + (r7 : ℚ) * 10 + (r8 : ℚ) + (r9 : ℚ) / 10 - 360
  if ph = pv then
    Except.ok ((az, el, ph), { s with pulse := ph })
  else
    Except.error PyError.consistencyError

/-- The constant STATUS command frame of `status()` (line 86). -/
def statusCmd : List ℕ :=
  [0x57, 0x00, 0x00, 0x00, 0x00, 0x00, 0x00, 0x00, 0x00, 0x00, 0x00, 0x1f, 0x20]

/-- The constant STOP command frame of `stop()` (line 120). -/
def stopCmd : List ℕ :=
  [0x57, 0x00, 0x00, 0x00, 0x00, 0x00, 0x00, 0x00, 0x00, 0x00, 0x00, 0x0f, 0x20]

/-- `status()`: writes the STATUS frame, then decodes the packet `rec`
obtained from `self.ser.read(12)`.  First component: the packets written
to the transport; second: the decode outcome (value and updated session,
or the raised exception). -/
def statusOp (s : Session) (rec : List ℕ) :
    List (List ℕ) × Except PyError ((ℚ × ℚ × ℕ) × Session) :=
  ([statusCmd], respDecode s rec)

/-- `stop()`: identical to `status()` except for the command frame
written (selector byte 0x0f). -/
def stopOp (s : Session) (rec : List ℕ) :
    List (List ℕ) × Except PyError ((ℚ × ℚ × ℕ) × Session) :=
  ([stopCmd], respDecode s rec)

/-- The session an operation leaves behind: on success the updated
session it produced, on a raised exception the caller still holds the
prior session unchanged. -/
def sessionAfter (s : Session) (r : Except PyError ((ℚ × ℚ × ℕ) × Session)) :
    Session :=
  match r with
  | Except.ok (_, s2) => s2
  | Except.error _ => s

/-- Little-endian decimal digits of a natural number (empty for 0).  The
first argument is fuel, sufficient whenever `n ≤ fuel`; structural
recursion on the fuel keeps the definition kernel-reducible. -/
def decDigitsF : ℕ → ℕ → List ℕ
  | 0, _ => []
  | fuel + 1, n => if n = 0 then [] else n % 10 :: decDigitsF fuel (n / 10)

/-- Little-endian decimal digits of `n` (empty for 0). -/
def decDigits (n : ℕ) : List ℕ := decDigitsF n n

/-- Python `str(n)` for a natural number, as the list of its decimal
digit values, most significant first (`"0"` for 0). -/
def pyStr (n : ℕ) : List ℕ :=
  if n = 0 then [0] else (decDigits n).reverse

/-- The padded string `"0" + str(n)` built on lines 160–161, as digit
values. -/
def padded (n : ℕ) : List ℕ := 0 :: pyStr n

/-- Python negative indexing `l[-k]` (for `k ≥ 1`): the `k`-th element
from the end, or `IndexError` (here `none`) when `k` exceeds the
length. -/
def negIdx (l : List ℕ) (k : ℕ) : Option ℕ :=
  if k ≤ l.length then l.get? (l.length - k) else none

/-- The four digit extractions `int(az[-4]), int(az[-3]), int(az[-2]),
int(az[-1])` of line 163 (Python's `int` applied to a single digit
character yields its digit value); `none` models the `IndexError` raised
when the string has fewer than four characters. -/
def last4 (l : List ℕ) : Option (ℕ × ℕ × ℕ × ℕ) :=
  match negIdx l 4, negIdx l 3, negIdx l 2, negIdx l 1 with
  | some d4, some d3, some d2, some d1 => some (d4, d3, d2, d1)
  | _, _, _, _ => none

/-- Python `int()` on a rational: truncation toward zero. -/
def pyInt (x : ℚ) : ℤ :=
  if 0 ≤ x then ⌊x⌋ else -⌊-x⌋

/-- `set(azi, eli)` (lines 153–167): the four range `assert`s in source
order, then the strings `az = "0" + str(int(self.pulse * (azi + 360)))`
and `el = "0" + str(int(self.pulse * (eli + 360)))`, then the command
list built from their four last characters, then the transport write.
`Int.toNat` is exact here because the asserted ranges make the products
nonnegative.  First component: packets written (empty when an exception
is raised first); second: the outcome (`set` never assigns any session
attribute, so success returns `s` itself). -/
def setOp (s : Session) (azi eli : ℚ) : List (List ℕ) × Except PyError Session :=
  if azi ≤ max_az then
    if min_az ≤ azi then
      if eli ≤ max_el then
        if min_el ≤ eli then
          let az := padded (pyInt ((s.pulse : ℚ) * (azi + 360))).toNat
          let el := padded (pyInt ((s.pulse : ℚ) * (eli + 360))).toNat
          match last4 az, last4 el with
          | some (a4, a3, a2, a1), some (e4, e3, e2, e1) =>
            ([[0x57, a4, a3, a2, a1, s.pulse, e4, e3, e2, e1, s.pulse, 0x2f, 0x20]],
              Except.ok s)
          | _, _ => ([], Except.error PyError.indexError)
        else ([], Except.error PyError.rangeError)
      else ([], Except.error PyError.rangeError)
    else ([], Except.error PyError.rangeError)
  else ([], Except.error PyError.rangeError)

/-- The session after a `set()` call: `set` raises or succeeds, in both
cases the caller's session attributes are untouched except through the
returned outcome. -/
def sessionAfterSet (s : Session) (r : Except PyError Session) : Session :=
  match r with
  | Except.ok s2 => s2
  | Except.error _ => s

theorem decDigitsF_zero (f : ℕ) : decDigitsF f 0 = [] := by
  cases f <;> simp [decDigitsF]

theorem decDigitsF_eq_of_le (f1 : ℕ) : ∀ f2 n : ℕ, n ≤ f1 → n ≤ f2 →
    decDigitsF f1 n = decDigitsF f2 n := by
  induction f1 with
  | zero =>
    intro f2 n h1 _
    interval_cases n
    simp [decDigitsF_zero]
  | succ f ih =>
    intro f2 n h1 h2
    rcases Nat.eq_zero_or_pos n with hn | hn
    · subst hn; simp [decDigitsF_zero]
    · rcases f2 with _ | g
      · omega
      · have hd : n / 10 < n := Nat.div_lt_self hn (by norm_num)
        simp only [decDigitsF, if_neg (Nat.pos_iff_ne_zero.mp hn)]
        rw [ih g (n / 10) (by omega) (by omega)]

theorem decDigits_succ (n : ℕ) (h : n ≠ 0) :
    decDigits n = n % 10 :: decDigits (n / 10) := by
  rcases n with _ | m
  · omega
  · show decDigitsF (m + 1) (m + 1) = _
    simp only [decDigitsF, if_neg h]
    congr 1
    exact decDigitsF_eq_of_le m _ _ (by omega) le_rfl

theorem decDigits_get? (n : ℕ) : ∀ k : ℕ, 10 ^ k ≤ n →
    (decDigits n).get? k = some (n / 10 ^ k % 10) := by
  induction n using Nat.strong_induction_on with
  | _ n ih =>
    intro k hk
    have hpk : 0 < 10 ^ k := pow_pos (by norm_num) k
    have hn : n ≠ 0 := by omega
    rw [decDigits_succ n hn]
    cases k with
    | zero => simp
    | succ j =>
      have hlt : n / 10 < n := Nat.div_lt_self (by omega) (by norm_num)
      have hle : 10 ^ j ≤ n / 10 := by
        rw [Nat.le_div_iff_mul_le (by norm_num)]
        calc 10 ^ j * 10 = 10 ^ (j + 1) := (pow_succ 10 j).symm
        _ ≤ n := hk
      rw [List.get?_cons_succ, ih (n / 10) hlt j hle]
      congr 2
      rw [Nat.div_div_eq_div_mul, pow_succ, mul_comm]

theorem decDigits_length_le (n : ℕ) : ∀ k : ℕ, n < 10 ^ k →
    (decDigits n).length ≤ k := by
  induction n using Nat.strong_induction_on with
  | _ n ih =>
    intro k hk
    rcases Nat.eq_zero_or_pos n with hn | hn
    · subst hn
      simp [decDigits, decDigitsF_zero]
    · rw [decDigits_succ n (by omega)]
      rcases k with _ | j
      · simp at hk; omega
      · have hlt : n / 10 < n := Nat.div_lt_self (by omega) (by norm_num)
        have hml : n / 10 < 10 ^ j := by
          rw [Nat.div_lt_iff_lt_mul (by norm_num)]
          calc n < 10 ^ (j + 1) := hk
          _ = 10 ^ j * 10 := pow_succ 10 j
        simpa using ih (n / 10) hlt j hml

theorem decDigits_lt_ten (n : ℕ) : ∀ d ∈ decDigits n, d < 10 := by
  induction n using Nat.strong_induction_on with
  | _ n ih =>
    intro d hd
    rcases Nat.eq_zero_or_pos n with hn | hn
    · subst hn; simp [decDigits, decDigitsF_zero] at hd
    · rw [decDigits_succ n (by omega)] at hd
      rw [List.mem_cons] at hd
      rcases hd with rfl | hd
      · omega
      · exact ih (n / 10) (Nat.div_lt_self (by omega) (by norm_num)) d hd

theorem negIdx_eq_reverse (l : List ℕ) (k : ℕ) (hk : 1 ≤ k) :
    negIdx l k = l.reverse.get? (k - 1) := by
  unfold negIdx
  by_cases h : k ≤ l.length
  · rw [if_pos h, List.get?_eq_getElem?, List.get?_eq_getElem?,
      List.getElem?_reverse (by omega)]
    congr 1
    omega
  · rw [if_neg h]
    symm
    rw [List.get?_eq_getElem?]
    apply List.getElem?_eq_none
    rw [List.length_reverse]
    omega

theorem reverse_padded (n : ℕ) (h : n ≠ 0) :
    (padded n).reverse = decDigits n ++ [0] := by
  unfold padded pyStr
  rw [if_neg h]
  simp

theorem lt_length_of_pow_le (n k : ℕ) (h : 10 ^ k ≤ n) :
    k < (decDigits n).length := by
  have hg := decDigits_get? n k h
  by_contra hc
  push_neg at hc
  rw [List.get?_eq_getElem?, List.getElem?_eq_none (by omega)] at hg
  exact Option.noConfusion hg

theorem negIdx_padded (n k : ℕ) (h100 : 100 ≤ n) (hk1 : 1 ≤ k) (hk4 : k ≤ 4) :
    negIdx (padded n) k = some (n / 10 ^ (k - 1) % 10) := by
  rw [negIdx_eq_reverse _ _ hk1, reverse_padded n (by omega)]
  by_cases hbig : 10 ^ (k - 1) ≤ n
  · have hlen : k - 1 < (decDigits n).length := lt_length_of_pow_le n (k - 1) hbig
    rw [List.get?_eq_getElem?, List.getElem?_append, if_pos hlen,
      ← List.get?_eq_getElem?, decDigits_get? n (k - 1) hbig]
  · have hk4' : k = 4 := by
      interval_cases k <;> simp_all
      omega
    subst hk4'
    have hn3 : n < 1000 := by
      have : ¬ 1000 ≤ n := by simpa using hbig
      omega
    have hlenle : (decDigits n).length ≤ 3 := decDigits_length_le n 3 (by norm_num; omega)
    have hlenge : 2 < (decDigits n).length := lt_length_of_pow_le n 2 (by norm_num; omega)
    rw [List.get?_eq_getElem?, List.getElem?_append, if_neg (by omega)]
    have h30 : (3 : ℕ) - (decDigits n).length = 0 := by omega
    simp only [h30]
    simp only [List.getElem?_cons_zero, Option.some.injEq]
    omega

theorem last4_padded (n : ℕ) (h100 : 100 ≤ n) :
    last4 (padded n) =
      some (n / 1000 % 10, n / 100 % 10, n / 10 % 10, n % 10) := by
  unfold last4
  rw [negIdx_padded n 4 h100 (by omega) (by omega),
    negIdx_padded n 3 h100 (by omega) (by omega),
    negIdx_padded n 2 h100 (by omega) (by omega),
    negIdx_padded n 1 h100 (by omega) (by omega)]
  norm_num

theorem except_bind_ok {e a b : Type} (v : a) (f : a → Except e b) :
    (Except.ok v >>= f) = f v := rfl

theorem except_bind_error {e a b : Type} (x : e) (f : a → Except e b) :
    ((Except.error x : Except e a) >>= f) = Except.error x := rfl

theorem pyIndex_cases (l : List ℕ) (i : ℕ) :
    pyIndex l i = Except.error PyError.indexError ∨ ∃ v, pyIndex l i = Except.ok v := by
  unfold pyIndex
  rcases l.get? i <;> simp

/-- Decoding any packet that has at least 11 bytes: none of the index
operations can fail, so the outcome is decided by the `ph = pv` check
alone, and the decoded values use only the first 11 bytes. -/
theorem respDecode_eleven (s : Session) (b0 b1 b2 b3 b4 b5 b6 b7 b8 b9 b10 : ℕ)
    (tail : List ℕ) :
    respDecode s (b0::b1::b2::b3::b4::b5::b6::b7::b8::b9::b10::tail) =
      if b5 = b10 then
        Except.ok (((b1 : ℚ) * 100 + (b2 : ℚ) * 10 + (b3 : ℚ) + (b4 : ℚ) / 10 - 360,
                    (b6 : ℚ) * 100 + (b7 : ℚ) * 10 + (b8 : ℚ) + (b9 : ℚ) / 10 - 360,
                    b5), { s with pulse := b5 })
      else Except.error PyError.consistencyError := rfl

/-- Decoding any packet that has at most 10 bytes: the read of
`rec_packet[10]` (or an earlier index) is out of range, so the decode
raises `IndexError`. -/
theorem respDecode_short (s : Session) (rec : List ℕ) (h : rec.length ≤ 10) :
    respDecode s rec = Except.error PyError.indexError := by
  have h10 : pyIndex rec 10 = Except.error PyError.indexError := by
    unfold pyIndex
    rw [List.get?_eq_getElem?, List.getElem?_eq_none (by omega)]
  rcases pyIndex_cases rec 1 with h1 | ⟨v1, h1⟩
  · simp [respDecode, h1, except_bind_error]
  rcases pyIndex_cases rec 2 with h2 | ⟨v2, h2⟩
  · simp [respDecode, h1, h2, except_bind_ok, except_bind_error]
  rcases pyIndex_cases rec 3 with h3 | ⟨v3, h3⟩
  · simp [respDecode, h1, h2, h3, except_bind_ok, except_bind_error]
  rcases pyIndex_cases rec 4 with h4 | ⟨v4, h4⟩
  · simp [respDecode, h1, h2, h3, h4, except_bind_ok, except_bind_error]
  rcases pyIndex_cases rec 6 with h6 | ⟨v6, h6⟩
  · simp [respDecode, h1, h2, h3, h4, h6, except_bind_ok, except_bind_error]
  rcases pyIndex_cases rec 7 with h7 | ⟨v7, h7⟩
  · simp [respDecode, h1, h2, h3, h4, h6, h7, except_bind_ok, except_bind_error]
  rcases pyIndex_cases rec 8 with h8 | ⟨v8, h8⟩
  · simp [respDecode, h1, h2, h3, h4, h6, h7, h8, except_bind_ok, except_bind_error]
  rcases pyIndex_cases rec 9 with h9 | ⟨v9, h9⟩
  · simp [respDecode, h1, h2, h3, h4, h6, h7, h8, h9, except_bind_ok, except_bind_error]
  rcases pyIndex_cases rec 5 with h5 | ⟨v5, h5⟩
  · simp [respDecode, h1, h2, h3, h4, h5, h6, h7, h8, h9, except_bind_ok, except_bind_error]
  simp [respDecode, h1, h2, h3, h4, h5, h6, h7, h8, h9, h10,
    except_bind_ok, except_bind_error]

/-- Claim C1: for every 12-byte response frame (whose PH byte equals its
PV byte, the consistency check both operations perform before using the
frame), `status()` and `stop()` decode each axis as
`d_hundreds*100 + d_tens*10 + d_units + d_tenths/10 - 360.0` — the same
`-360.0` offset on elevation as on azimuth — update the cached pulse
resolution to the PH byte, and return (azimuth, elevation, pulse
resolution) in that order. -/
theorem claim_C1_decode_and_update (s : Session)
    (b0 b1 b2 b3 b4 b5 b6 b7 b8 b9 b10 b11 : ℕ) (h : b5 = b10) :
    (statusOp s [b0, b1, b2, b3, b4, b5, b6, b7, b8, b9, b10, b11]).2 =
      Except.ok (((b1 : ℚ) * 100 + (b2 : ℚ) * 10 + (b3 : ℚ) + (b4 : ℚ) / 10 - 360,
                  (b6 : ℚ) * 100 + (b7 : ℚ) * 10 + (b8 : ℚ) + (b9 : ℚ) / 10 - 360,
                  b5), { s with pulse := b5 }) ∧
    (stopOp s [b0, b1, b2, b3, b4, b5, b6, b7, b8, b9, b10, b11]).2 =
      Except.ok (((b1 : ℚ) * 100 + (b2 : ℚ) * 10 + (b3 : ℚ) + (b4 : ℚ) / 10 - 360,
                  (b6 : ℚ) * 100 + (b7 : ℚ) * 10 + (b8 : ℚ) + (b9 : ℚ) / 10 - 360,
                  b5), { s with pulse := b5 }) := by
  constructor <;>
    exact (respDecode_eleven s b0 b1 b2 b3 b4 b5 b6 b7 b8 b9 b10 [b11]).trans
      (if_pos h)

theorem claim_C1_witness :
    (statusOp initSession [0x57, 4, 5, 0, 0, 1, 4, 5, 0, 0, 1, 0x20]).2 =
      Except.ok ((90, 90, 1), { initSession with pulse := 1 }) ∧
    (stopOp initSession [0x57, 4, 5, 0, 0, 1, 4, 5, 0, 0, 1, 0x20]).2 =
      Except.ok ((90, 90, 1), { initSession with pulse := 1 }) := by
  have h := claim_C1_decode_and_update initSession 0x57 4 5 0 0 1 4 5 0 0 1 0x20 rfl
  constructor
  · rw [h.1]
    norm_num
  · rw [h.2]
    norm_num

/-- Claim C3: for every 12-byte response frame whose PH byte (offset 5)
differs from its PV byte (offset 10), decoding in `status()` and
`stop()` raises the consistency failure (`assert(ph == pv)`) and never
returns a value. -/
theorem claim_C3_consistency (s : Session)
    (b0 b1 b2 b3 b4 b5 b6 b7 b8 b9 b10 b11 : ℕ) (h : b5 ≠ b10) :
    (statusOp s [b0, b1, b2, b3, b4, b5, b6, b7, b8, b9, b10, b11]).2 =
      Except.error PyError.consistencyError ∧
    (stopOp s [b0, b1, b2, b3, b4, b5, b6, b7, b8, b9, b10, b11]).2 =
      Except.error PyError.consistencyError := by
  constructor <;>
    exact (respDecode_eleven s b0 b1 b2 b3 b4 b5 b6 b7 b8 b9 b10 [b11]).trans
      (if_neg h)

theorem claim_C3_witness :
    (statusOp initSession [0x57, 4, 5, 0, 0, 1, 4, 5, 0, 0, 2, 0x20]).2 =
      Except.error PyError.consistencyError ∧
    (stopOp initSession [0x57, 4, 5, 0, 0, 1, 4, 5, 0, 0, 2, 0x20]).2 =
      Except.error PyError.consistencyError :=
  claim_C3_consistency initSession 0x57 4 5 0 0 1 4 5 0 0 2 0x20 (by decide)

/-- Claim C9: when `status()` or `stop()` fails because PH differs from
PV, the session keeps its prior cached pulse resolution: the
`assert(ph == pv)` precedes the `self.pulse = ph` assignment, so the
failed exchange leaves the session unchanged. -/
theorem claim_C9_state_preserved (s : Session)
    (b0 b1 b2 b3 b4 b5 b6 b7 b8 b9 b10 b11 : ℕ) (h : b5 ≠ b10) :
    sessionAfter s (statusOp s [b0, b1, b2, b3, b4, b5, b6, b7, b8, b9, b10, b11]).2 = s ∧
    sessionAfter s (stopOp s [b0, b1, b2, b3, b4, b5, b6, b7, b8, b9, b10, b11]).2 = s := by
  constructor <;>
  · show sessionAfter s (respDecode s _) = s
    rw [respDecode_eleven, if_neg h]
    rfl

theorem claim_C9_witness :
    sessionAfter { initSession with pulse := 7 }
      (statusOp { initSession with pulse := 7 }
        [0x57, 4, 5, 0, 0, 1, 4, 5, 0, 0, 2, 0x20]).2 = { initSession with pulse := 7 } ∧
    sessionAfter { initSession with pulse := 7 }
      (stopOp { initSession with pulse := 7 }
        [0x57, 4, 5, 0, 0, 1, 4, 5, 0, 0, 2, 0x20]).2 = { initSession with pulse := 7 } :=
  claim_C9_state_preserved { initSession with pulse := 7 }
    0x57 4 5 0 0 1 4 5 0 0 2 0x20 (by decide)

/-- Claim C8: for every session state (any cached pulse resolution,
debug flag or device path) and whatever response follows, `stop()`
writes exactly the constant 13-byte frame with selector byte 0x0f and
all digit and pulse bytes zero. -/
theorem claim_C8_stop_frame (s : Session) (rec : List ℕ) :
    (stopOp s rec).1 =
      [[0x57, 0, 0, 0, 0, 0, 0, 0, 0, 0, 0, 0x0f, 0x20]] := rfl

/-- Claim C5 counterexample: an 11-byte response (length ≠ 12) is decoded
to a value by `status()` and `stop()` rather than yielding any framing
failure, because the code never checks the response length. -/
theorem claim_C5_counterexample :
    ([0x57, 4, 5, 0, 0, 1, 4, 5, 0, 0, 1] : List ℕ).length ≠ 12 ∧
    (statusOp initSession [0x57, 4, 5, 0, 0, 1, 4, 5, 0, 0, 1]).2 =
      Except.ok ((90, 90, 1), { initSession with pulse := 1 }) ∧
    (stopOp initSession [0x57, 4, 5, 0, 0, 1, 4, 5, 0, 0, 1]).2 =
      Except.ok ((90, 90, 1), { initSession with pulse := 1 }) := by
  refine ⟨by decide, ?_, ?_⟩ <;>
  · show respDecode initSession _ = _
    rw [respDecode_eleven initSession 0x57 4 5 0 0 1 4 5 0 0 1 [], if_pos rfl]
    norm_num

/-- Claim C5 as amended: the decode in `status()` and `stop()` performs
no length check.  A response of at most 10 bytes fails with an
`IndexError` (never a value) because `rec_packet[10]` or an earlier
index is out of range; a response of 11 bytes or more — whatever its
total length, 12 or not — is decoded from its first 11 bytes, returning
a value whenever byte 5 equals byte 10. -/
theorem claim_C5_amended :
    (∀ (s : Session) (rec : List ℕ), rec.length ≤ 10 →
      (statusOp s rec).2 = Except.error PyError.indexError ∧
      (stopOp s rec).2 = Except.error PyError.indexError) ∧
    (∀ (s : Session) (b0 b1 b2 b3 b4 b5 b6 b7 b8 b9 b10 : ℕ) (tail : List ℕ),
      b5 = b10 →
      (statusOp s (b0::b1::b2::b3::b4::b5::b6::b7::b8::b9::b10::tail)).2 =
        Except.ok (((b1 : ℚ) * 100 + (b2 : ℚ) * 10 + (b3 : ℚ) + (b4 : ℚ) / 10 - 360,
                    (b6 : ℚ) * 100 + (b7 : ℚ) * 10 + (b8 : ℚ) + (b9 : ℚ) / 10 - 360,
                    b5), { s with pulse := b5 }) ∧
      (stopOp s (b0::b1::b2::b3::b4::b5::b6::b7::b8::b9::b10::tail)).2 =
        Except.ok (((b1 : ℚ) * 100 + (b2 : ℚ) * 10 + (b3 : ℚ) + (b4 : ℚ) / 10 - 360,
                    (b6 : ℚ) * 100 + (b7 : ℚ) * 10 + (b8 : ℚ) + (b9 : ℚ) / 10 - 360,
                    b5), { s with pulse := b5 })) := by
  constructor
  · intro s rec h
    exact ⟨respDecode_short s rec h, respDecode_short s rec h⟩
  · intro s b0 b1 b2 b3 b4 b5 b6 b7 b8 b9 b10 tail h
    constructor <;>
      exact (respDecode_eleven s b0 b1 b2 b3 b4 b5 b6 b7 b8 b9 b10 tail).trans
        (if_pos h)

theorem claim_C5_amended_witness :
    ((statusOp initSession [0x57, 4, 5]).2 = Except.error PyError.indexError ∧
      (stopOp initSession [0x57, 4, 5]).2 = Except.error PyError.indexError) ∧
    ((statusOp initSession [0x57, 4, 5, 0, 0, 1, 4, 5, 0, 0, 1, 0x20, 0x20]).2 =
        Except.ok ((90, 90, 1), { initSession with pulse := 1 }) ∧
      (stopOp initSession [0x57, 4, 5, 0, 0, 1, 4, 5, 0, 0, 1, 0x20, 0x20]).2 =
        Except.ok ((90, 90, 1), { initSession with pulse := 1 })) := by
  constructor
  · exact claim_C5_amended.1 initSession [0x57, 4, 5] (by decide)
  · have h := claim_C5_amended.2 initSession 0x57 4 5 0 0 1 4 5 0 0 1 [0x20, 0x20] rfl
    constructor
    · rw [h.1]
      norm_num
    · rw [h.2]
      norm_num

theorem pyInt_nonneg_eq_floor (x : ℚ) (h : 0 ≤ x) : pyInt x = ⌊x⌋ := if_pos h

theorem floor_prod_ge (p : ℕ) (hp : 1 ≤ p) (v : ℚ) (hv : 180 ≤ v + 360) :
    (180 : ℤ) ≤ ⌊(p : ℚ) * (v + 360)⌋ := by
  rw [Int.le_floor]
  push_cast
  calc (180 : ℚ) = 1 * 180 := by ring
  _ ≤ (p : ℚ) * (v + 360) := by
      apply mul_le_mul (by exact_mod_cast hp) hv (by norm_num) (by positivity)

theorem padded_length_ge (n : ℕ) (h : 100 ≤ n) : 4 ≤ (padded n).length := by
  unfold padded pyStr
  rw [if_neg (by omega)]
  have := lt_length_of_pow_le n 2 (by norm_num; omega)
  simp only [List.length_cons, List.length_reverse]
  omega

/-- In-range `set()` with a positive cached pulse resolution: the raw
values are the floors of `pulse * (value + 360)`, both at least 180, and
the command frame carries their four low-order decimal digits. -/
theorem setOp_eq (s : Session) (azi eli : ℚ) (hp : 1 ≤ s.pulse)
    (h1 : -180 ≤ azi) (h2 : azi ≤ 360) (h3 : 0 ≤ eli) (h4 : eli ≤ 180) :
    ∃ nAz nEl : ℕ,
      nAz = (pyInt ((s.pulse : ℚ) * (azi + 360))).toNat ∧
      nEl = (pyInt ((s.pulse : ℚ) * (eli + 360))).toNat ∧
      (nAz : ℤ) = ⌊(s.pulse : ℚ) * (azi + 360)⌋ ∧
      (nEl : ℤ) = ⌊(s.pulse : ℚ) * (eli + 360)⌋ ∧
      180 ≤ nAz ∧ 180 ≤ nEl ∧
      setOp s azi eli =
        ([[0x57, nAz / 1000 % 10, nAz / 100 % 10, nAz / 10 % 10, nAz % 10, s.pulse,
           nEl / 1000 % 10, nEl / 100 % 10, nEl / 10 % 10, nEl % 10, s.pulse,
           0x2f, 0x20]], Except.ok s) := by
  have hA0 : (0 : ℚ) ≤ (s.pulse : ℚ) * (azi + 360) :=
    mul_nonneg (by positivity) (by linarith)
  have hE0 : (0 : ℚ) ≤ (s.pulse : ℚ) * (eli + 360) :=
    mul_nonneg (by positivity) (by linarith)
  have hAf : (180 : ℤ) ≤ ⌊(s.pulse : ℚ) * (azi + 360)⌋ :=
    floor_prod_ge s.pulse hp azi (by linarith)
  have hEf : (180 : ℤ) ≤ ⌊(s.pulse : ℚ) * (eli + 360)⌋ :=
    floor_prod_ge s.pulse hp eli (by linarith)
  have hAc : ((pyInt ((s.pulse : ℚ) * (azi + 360))).toNat : ℤ) =
      ⌊(s.pulse : ℚ) * (azi + 360)⌋ := by
    rw [pyInt_nonneg_eq_floor _ hA0]
    exact Int.toNat_of_nonneg (by omega)
  have hEc : ((pyInt ((s.pulse : ℚ) * (eli + 360))).toNat : ℤ) =
      ⌊(s.pulse : ℚ) * (eli + 360)⌋ := by
    rw [pyInt_nonneg_eq_floor _ hE0]
    exact Int.toNat_of_nonneg (by omega)
  refine ⟨(pyInt ((s.pulse : ℚ) * (azi + 360))).toNat,
    (pyInt ((s.pulse : ℚ) * (eli + 360))).toNat,
    rfl, rfl, hAc, hEc, by omega, by omega, ?_⟩
  simp only [setOp, max_az, min_az, max_el, min_el]
  rw [if_pos h2, if_pos h1, if_pos h4, if_pos h3,
    last4_padded _ (by omega), last4_padded _ (by omega)]

/-- Claim C2: for every pulse resolution p ≥ 1 and in-domain azimuth and
elevation, the SET frame encodes each axis as the four least-significant
decimal digits of `floor(p * (v + 360))` (read from the padded decimal
string), so the digit fields of the frame reproduce
`floor(p*(az+360)) mod 10000` and `floor(p*(el+360)) mod 10000`. -/
theorem claim_C2_set_digits (s : Session) (azi eli : ℚ) (hp : 1 ≤ s.pulse)
    (h1 : -180 ≤ azi) (h2 : azi ≤ 360) (h3 : 0 ≤ eli) (h4 : eli ≤ 180) :
    ∃ a4 a3 a2 a1 e4 e3 e2 e1 : ℕ,
      setOp s azi eli =
        ([[0x57, a4, a3, a2, a1, s.pulse, e4, e3, e2, e1, s.pulse, 0x2f, 0x20]],
          Except.ok s) ∧
      ((a4 * 1000 + a3 * 100 + a2 * 10 + a1 : ℕ) : ℤ) =
        ⌊(s.pulse : ℚ) * (azi + 360)⌋ % 10000 ∧
      ((e4 * 1000 + e3 * 100 + e2 * 10 + e1 : ℕ) : ℤ) =
        ⌊(s.pulse : ℚ) * (eli + 360)⌋ % 10000 := by
  obtain ⟨nAz, nEl, _, _, hAc, hEc, hAge, hEge, heq⟩ :=
    setOp_eq s azi eli hp h1 h2 h3 h4
  refine ⟨nAz / 1000 % 10, nAz / 100 % 10, nAz / 10 % 10, nAz % 10,
    nEl / 1000 % 10, nEl / 100 % 10, nEl / 10 % 10, nEl % 10, heq, ?_, ?_⟩
  · rw [← hAc]
    omega
  · rw [← hEc]
    omega

theorem claim_C2_witness :
    ∃ a4 a3 a2 a1 e4 e3 e2 e1 : ℕ,
      setOp { pulse := 2, debug := false, dev_path := "" } 90 45 =
        ([[0x57, a4, a3, a2, a1, 2, e4, e3, e2, e1, 2, 0x2f, 0x20]],
          Except.ok { pulse := 2, debug := false, dev_path := "" }) ∧
      ((a4 * 1000 + a3 * 100 + a2 * 10 + a1 : ℕ) : ℤ) =
        ⌊((2 : ℕ) : ℚ) * (90 + 360)⌋ % 10000 ∧
      ((e4 * 1000 + e3 * 100 + e2 * 10 + e1 : ℕ) : ℤ) =
        ⌊((2 : ℕ) : ℚ) * (45 + 360)⌋ % 10000 :=
  claim_C2_set_digits { pulse := 2, debug := false, dev_path := "" } 90 45
    (by norm_num) (by norm_num) (by norm_num) (by norm_num) (by norm_num)

theorem setOp_not_range (s : Session) (azi eli : ℚ) (h1 : azi ≤ 360)
    (h2 : -180 ≤ azi) (h3 : eli ≤ 180) (h4 : 0 ≤ eli) :
    (setOp s azi eli).2 ≠ Except.error PyError.rangeError := by
  simp only [setOp, max_az, min_az, max_el, min_el]
  rw [if_pos h1, if_pos h2, if_pos h3, if_pos h4]
  rcases hA : last4 (padded (pyInt ((s.pulse : ℚ) * (azi + 360))).toNat) with _ | ⟨a4, a3, a2, a1⟩ <;>
  rcases hB : last4 (padded (pyInt ((s.pulse : ℚ) * (eli + 360))).toNat) with _ | ⟨e4, e3, e2, e1⟩ <;>
  simp

/-- Claim C4: `set()` with azimuth outside [-180, 360] or elevation
outside [0, 180] fails with the range assertion, writes nothing to the
transport and leaves the session unchanged; at the boundary values the
validation passes (no range failure). -/
theorem claim_C4_range_check (s : Session) (azi eli : ℚ)
    (h : 360 < azi ∨ azi < -180 ∨ 180 < eli ∨ eli < 0) :
    (setOp s azi eli = ([], Except.error PyError.rangeError) ∧
      sessionAfterSet s (setOp s azi eli).2 = s) ∧
    ((setOp s (-180) 0).2 ≠ Except.error PyError.rangeError ∧
      (setOp s 360 0).2 ≠ Except.error PyError.rangeError ∧
      (setOp s (-180) 180).2 ≠ Except.error PyError.rangeError ∧
      (setOp s 360 180).2 ≠ Except.error PyError.rangeError) := by
  have hmain : setOp s azi eli = ([], Except.error PyError.rangeError) := by
    simp only [setOp, max_az, min_az, max_el, min_el]
    split_ifs with ha hb hc hd
    · exfalso
      rcases h with h | h | h | h <;> linarith
    · rfl
    · rfl
    · rfl
    · rfl
  refine ⟨⟨hmain, by rw [hmain]; rfl⟩,
    setOp_not_range s (-180) 0 (by norm_num) (by norm_num) (by norm_num) (by norm_num),
    setOp_not_range s 360 0 (by norm_num) (by norm_num) (by norm_num) (by norm_num),
    setOp_not_range s (-180) 180 (by norm_num) (by norm_num) (by norm_num) (by norm_num),
    setOp_not_range s 360 180 (by norm_num) (by norm_num) (by norm_num) (by norm_num)⟩

theorem claim_C4_witness :
    (setOp initSession 400 90 = ([], Except.error PyError.rangeError) ∧
      sessionAfterSet initSession (setOp initSession 400 90).2 = initSession) ∧
    ((setOp initSession (-180) 0).2 ≠ Except.error PyError.rangeError ∧
      (setOp initSession 360 0).2 ≠ Except.error PyError.rangeError ∧
      (setOp initSession (-180) 180).2 ≠ Except.error PyError.rangeError ∧
      (setOp initSession 360 180).2 ≠ Except.error PyError.rangeError) :=
  claim_C4_range_check initSession 400 90 (Or.inl (by norm_num))

/-- Claim C6 counterexample: with cached pulse resolution 0 and in-domain
arguments, `set()` fails with an `IndexError` — the accidental result of
extracting `az[-4]` from the two-character string `"00"` — not with a
dedicated `UninitializedResolutionError`; no such check exists in the
code. -/
theorem claim_C6_counterexample :
    setOp initSession 90 90 = ([], Except.error PyError.indexError) ∧
    PyError.indexError ≠ PyError.uninitializedResolutionError := by
  constructor
  · simp only [setOp, max_az, min_az, max_el, min_el]
    rw [if_pos (by norm_num), if_pos (by norm_num), if_pos (by norm_num),
      if_pos (by norm_num)]
    have h0 : (pyInt ((initSession.pulse : ℚ) * (90 + 360))).toNat = 0 := by
      show (pyInt (((0 : ℕ) : ℚ) * (90 + 360))).toNat = 0
      norm_num [pyInt]
    rw [h0]
    rfl
  · decide

/-- Claim C6 as amended: for every in-domain (azimuth, elevation), if the
session's cached pulse resolution is 0, `set()` fails before any
transport write — but with an `IndexError` (the padded string `"00"` has
no index -4), not with a dedicated `UninitializedResolutionError`
check. -/
theorem claim_C6_amended (s : Session) (azi eli : ℚ) (hp : s.pulse = 0)
    (h1 : -180 ≤ azi) (h2 : azi ≤ 360) (h3 : 0 ≤ eli) (h4 : eli ≤ 180) :
    setOp s azi eli = ([], Except.error PyError.indexError) := by
  simp only [setOp, max_az, min_az, max_el, min_el]
  rw [if_pos h2, if_pos h1, if_pos h4, if_pos h3]
  have hA : (pyInt ((s.pulse : ℚ) * (azi + 360))).toNat = 0 := by
    rw [hp]
    norm_num [pyInt]
  have hE : (pyInt ((s.pulse : ℚ) * (eli + 360))).toNat = 0 := by
    rw [hp]
    norm_num [pyInt]
  rw [hA, hE]
  rfl

theorem claim_C6_amended_witness :
    setOp initSession (-180) 0 = ([], Except.error PyError.indexError) :=
  claim_C6_amended initSession (-180) 0 rfl (by norm_num) (by norm_num)
    (by norm_num) (by norm_num)

/-- Claim C7: with cached pulse resolution 1, `set(90.0, 90.0)` writes
exactly the 13-byte frame
`[0x57, 0, 4, 5, 0, 1, 0, 4, 5, 0, 1, 0x2f, 0x20]`. -/
theorem claim_C7_set_90_90 :
    setOp { pulse := 1, debug := false, dev_path := "" } 90 90 =
      ([[0x57, 0, 4, 5, 0, 1, 0, 4, 5, 0, 1, 0x2f, 0x20]],
        Except.ok { pulse := 1, debug := false, dev_path := "" }) := by
  simp only [setOp, max_az, min_az, max_el, min_el]
  rw [if_pos (by norm_num), if_pos (by norm_num), if_pos (by norm_num),
    if_pos (by norm_num)]
  have h450 : (pyInt ((({ pulse := 1, debug := false, dev_path := "" } : Session).pulse : ℚ)
      * (90 + 360))).toNat = 450 := by
    show (pyInt (((1 : ℕ) : ℚ) * (90 + 360))).toNat = 450
    have : ((1 : ℕ) : ℚ) * (90 + 360) = 450 := by norm_num
    rw [this, pyInt_nonneg_eq_floor _ (by norm_num)]
    norm_num
    decide
  rw [h450]
  rfl

/-- Claim C10: for every pulse resolution p ≥ 1 and in-domain values, the
padded decimal strings built by `set()` have at least 4 characters (the
raw values are at least 180), so extracting the four least-significant
digit characters succeeds and every extracted byte is a digit 0–9, and
the `set()` call itself succeeds. -/
theorem claim_C10_digit_extraction (s : Session) (azi eli : ℚ) (hp : 1 ≤ s.pulse)
    (h1 : -180 ≤ azi) (h2 : azi ≤ 360) (h3 : 0 ≤ eli) (h4 : eli ≤ 180) :
    180 ≤ (pyInt ((s.pulse : ℚ) * (azi + 360))).toNat ∧
    180 ≤ (pyInt ((s.pulse : ℚ) * (eli + 360))).toNat ∧
    4 ≤ (padded (pyInt ((s.pulse : ℚ) * (azi + 360))).toNat).length ∧
    4 ≤ (padded (pyInt ((s.pulse : ℚ) * (eli + 360))).toNat).length ∧
    (∃ a4 a3 a2 a1 e4 e3 e2 e1 : ℕ,
      last4 (padded (pyInt ((s.pulse : ℚ) * (azi + 360))).toNat) =
        some (a4, a3, a2, a1) ∧
      last4 (padded (pyInt ((s.pulse : ℚ) * (eli + 360))).toNat) =
        some (e4, e3, e2, e1) ∧
      a4 < 10 ∧ a3 < 10 ∧ a2 < 10 ∧ a1 < 10 ∧
      e4 < 10 ∧ e3 < 10 ∧ e2 < 10 ∧ e1 < 10) ∧
    (setOp s azi eli).2 = Except.ok s := by
  obtain ⟨nAz, nEl, hAn, hEn, hAc, hEc, hAge, hEge, heq⟩ :=
    setOp_eq s azi eli hp h1 h2 h3 h4
  subst hAn
  subst hEn
  refine ⟨hAge, hEge, padded_length_ge _ (by omega), padded_length_ge _ (by omega),
    ⟨_, _, _, _, _, _, _, _, last4_padded _ (by omega), last4_padded _ (by omega),
      by omega, by omega, by omega, by omega, by omega, by omega, by omega, by omega⟩,
    by rw [heq]⟩

theorem claim_C10_witness :
    180 ≤ (pyInt ((((3 : ℕ) : ℚ)) * (0 + 360))).toNat ∧
    180 ≤ (pyInt ((((3 : ℕ) : ℚ)) * (10 + 360))).toNat ∧
    4 ≤ (padded (pyInt ((((3 : ℕ) : ℚ)) * (0 + 360))).toNat).length ∧
    4 ≤ (padded (pyInt ((((3 : ℕ) : ℚ)) * (10 + 360))).toNat).length ∧
    (∃ a4 a3 a2 a1 e4 e3 e2 e1 : ℕ,
      last4 (padded (pyInt ((((3 : ℕ) : ℚ)) * (0 + 360))).toNat) =
        some (a4, a3, a2, a1) ∧
      last4 (padded (pyInt ((((3 : ℕ) : ℚ)) * (10 + 360))).toNat) =
        some (e4, e3, e2, e1) ∧
      a4 < 10 ∧ a3 < 10 ∧ a2 < 10 ∧ a1 < 10 ∧
      e4 < 10 ∧ e3 < 10 ∧ e2 < 10 ∧ e1 < 10) ∧
    (setOp { pulse := 3, debug := false, dev_path := "" } 0 10).2 =
      Except.ok { pulse := 3, debug := false, dev_path := "" } :=
  claim_C10_digit_extraction { pulse := 3, debug := false, dev_path := "" } 0 10
    (by norm_num) (by norm_num) (by norm_num) (by norm_num) (by norm_num)
